import Mathlib

/-!
Verification of the fitness-club backend's membership-expiry, eligibility,
check-in and reporting logic.

The Python sources are shallowly embedded:

* `src/utils/payments.py` — `get_expiry_date`, `is_expired`, `is_expiring_soon`;
* `src/attendance/models.py` — the `Attendance` model, its `save` override and
  the partial unique constraint declared in `Attendance.Meta`;
* `src/attendance/views.py` — `CheckInAPIView.post`;
* `src/reports/management/commands/generate_reports.py` — daily and monthly
  report generation.

Calendar dates are modelled as year/month/day triples with the proleptic
Gregorian ordinal maps (the algorithms used by `datetime.date.toordinal` and
`fromordinal`).  Python's distinction between `datetime.date` and
`datetime.datetime` is kept: `Payment.date` is a `DateTimeField`, so the value
flowing out of `member.payments.order_by('-date').first().date` is a datetime,
and Python raises `TypeError` on ordering comparisons or subtraction between a
`date` and a `datetime`.  Fallible Python code is embedded in `Except`.

Django query primitives (`filter`, `count`, `Sum`, `distinct`, `exists`,
`update_or_create`, partial `UniqueConstraint`) are embedded as list
operations.  The `date` lookup (`__date`) is registered only on
`DateTimeField`: on `Member.created_at` it compares calendar-date parts, but
`Attendance.attended_at` is a `DateField`, so every
`attended_at__date`-style filter in the source raises
`FieldError: Unsupported lookup 'date'` when the queryset is built — an
error path the embedding keeps.  Managers that default to `state=True`
filtering (`ActiveManager`, `AttendanceManager`) are embedded as an explicit
`state`-filter stage in front of the query.
-/

/-! ## Calendar dates -/

/-- Leap-year rule of the Gregorian calendar (`calendar.isleap`). -/
def isLeap (y : Int) : Bool :=
  y % 4 == 0 && (y % 100 != 0 || y % 400 == 0)

/-- Number of days in a month (`calendar.monthrange(year, month)[1]`). -/
def daysInMonth (y m : Int) : Int :=
  if m == 2 then (if isLeap y then 29 else 28)
  else if m == 4 || m == 6 || m == 9 || m == 11 then 30
  else 31

/-- A calendar date (`datetime.date`). -/
structure Date where
  year : Int
  month : Int
  day : Int
deriving DecidableEq, Repr

/-- Strict ordering of dates, lexicographic on (year, month, day) —
Python's `date.__lt__`. -/
def Date.blt (a b : Date) : Bool :=
  a.year < b.year ||
    (a.year == b.year &&
      (a.month < b.month || (a.month == b.month && a.day < b.day)))

/-- Non-strict ordering of dates — Python's `date.__le__`. -/
def Date.ble (a b : Date) : Bool :=
  a == b || Date.blt a b

/-- Days since 1970-01-01 of a date (shifted `date.toordinal`; the standard
days-from-civil algorithm). -/
def Date.toOrd (d : Date) : Int :=
  let y := if d.month ≤ 2 then d.year - 1 else d.year
  let era := (if 0 ≤ y then y else y - 399) / 400
  let yoe := y - era * 400
  let mp := if 2 < d.month then d.month - 3 else d.month + 9
  let doy := (153 * mp + 2) / 5 + d.day - 1
  let doe := yoe * 365 + yoe / 4 - yoe / 100 + doy
  era * 146097 + doe - 719468

/-- Date from days since 1970-01-01 (shifted `date.fromordinal`; the standard
civil-from-days algorithm). -/
def Date.fromOrd (z0 : Int) : Date :=
  let z := z0 + 719468
  let era := (if 0 ≤ z then z else z - 146096) / 146097
  let doe := z - era * 146097
  let yoe := (doe - doe / 1460 + doe / 36524 - doe / 146096) / 365
  let y := yoe + era * 400
  let doy := doe - (365 * yoe + yoe / 4 - yoe / 100)
  let mp := (5 * doy + 2) / 153
  let d := doy - (153 * mp + 2) / 5 + 1
  let m := if mp < 10 then mp + 3 else mp - 9
  ⟨if m ≤ 2 then y + 1 else y, m, d⟩

/-- `d + timedelta(days=n)` on a `datetime.date`. -/
def Date.addDays (d : Date) (n : Int) : Date :=
  Date.fromOrd (d.toOrd + n)

/-- `(a - b).days` for two `datetime.date` values. -/
def dateSubDays (a b : Date) : Int :=
  a.toOrd - b.toOrd

/-- A timestamp (`datetime.datetime`): a calendar date plus a time of day,
abstracted as the number of seconds past midnight. -/
structure DateTime where
  date : Date
  sec : Nat
deriving DecidableEq, Repr

/-- Strict ordering of datetimes (Python compares date part, then time). -/
def DateTime.blt (a b : DateTime) : Bool :=
  Date.blt a.date b.date || (a.date == b.date && a.sec < b.sec)

/-! ## Python date-or-datetime values

`Payment.date` is a `DateTimeField`, while `member.created_at.date()` is a
plain `date`; the expiry logic mixes the two.  Python raises `TypeError` when
a `date` and a `datetime` meet in an ordering comparison or a subtraction, so
those operations are embedded in `Except`. -/

/-- A Python value that is either a `datetime.date` or a
`datetime.datetime`. -/
inductive PyDateVal where
  | pd (d : Date)
  | pdt (dt : DateTime)
deriving DecidableEq, Repr

/-- Errors raised by the embedded Python expiry code: `TypeError` from
comparing or subtracting a `date` and a `datetime`, `FieldError` from an
unsupported field lookup (`attended_at__date` on a `DateField`). -/
inductive PyErr where
  | typeError
  | fieldError
deriving DecidableEq, Repr

/-- The calendar-date part of a date-or-datetime value (what a Django
`__date` lookup compares against). -/
def PyDateVal.datePart : PyDateVal → Date
  | .pd d => d
  | .pdt dt => dt.date

/-- `v + timedelta(days=n)`: defined on both dates and datetimes, moving the
date part and leaving any time of day unchanged. -/
def PyDateVal.addDays : PyDateVal → Int → PyDateVal
  | .pd d, n => .pd (d.addDays n)
  | .pdt dt, n => .pdt ⟨dt.date.addDays n, dt.sec⟩

/-- The `.year` attribute (shared by dates and datetimes). -/
def PyDateVal.year (v : PyDateVal) : Int := v.datePart.year

/-- The `.month` attribute (shared by dates and datetimes). -/
def PyDateVal.month (v : PyDateVal) : Int := v.datePart.month

/-- `a > v` for a `date` on the left: a plain comparison when `v` is a
`date`, a `TypeError` when `v` is a `datetime`. -/
def pyGtDate (a : Date) (v : PyDateVal) : Except PyErr Bool :=
  match v with
  | .pd d => .ok (Date.blt d a)
  | .pdt _ => .error .typeError

/-- `(v - b).days` for a `date` subtrahend: a day count when `v` is a
`date`, a `TypeError` when `v` is a `datetime`. -/
def pySubDays (v : PyDateVal) (b : Date) : Except PyErr Int :=
  match v with
  | .pd d => .ok (dateSubDays d b)
  | .pdt _ => .error .typeError

/-! ## Data model

Records carry exactly the fields the verified logic reads.  `state` is the
soft-delete flag every model inherits from `BaseModel`. -/

/-- A row of `members.Member`. -/
structure MemberRec where
  id : Nat
  pin_code : String
  payment_type : String
  gender : String
  created_at : DateTime
  state : Bool
deriving DecidableEq, Repr

/-- A row of `finance.Payment` (`date` is a `DateTimeField`). -/
structure PaymentRec where
  member : Nat
  amount : Int
  date : DateTime
  payment_type : String
  payment_method : String
  state : Bool
deriving DecidableEq, Repr

/-- A row of `finance.Costs`. -/
structure CostRec where
  quantity : Int
  date : DateTime
  state : Bool
deriving DecidableEq, Repr

/-- A row of `reports.Subscription` (only the fields the report query
reads). -/
structure SubscriptionRec where
  member : Nat
  end_date : Date
  state : Bool
deriving DecidableEq, Repr

/-- A row of `attendance.Attendance` (`attended_at` is a `DateField` filled
by `auto_now_add`). -/
structure AttRow where
  id : Nat
  member : Nat
  attended_at : Date
  state : Bool
deriving DecidableEq, Repr

/-- The read-mostly part of the database: members, payments, costs,
subscriptions.  Attendance rows are the contended resource and are kept in a
separate mutable state. -/
structure Db where
  members : List MemberRec
  payments : List PaymentRec
  costs : List CostRec
  subs : List SubscriptionRec
deriving Repr

/-- `member.payments` — the related manager of `Payment`, whose default
manager is `ActiveManager` (`state=True` only). -/
def memberPayments (db : Db) (m : MemberRec) : List PaymentRec :=
  db.payments.filter (fun p => p.member == m.id && p.state)

/-- `qs.order_by('-date').first()` on a payment queryset: the payment with
the greatest timestamp (the first listed one among ties). -/
def lastPayment (ps : List PaymentRec) : Option PaymentRec :=
  ps.foldl
    (fun acc p =>
      match acc with
      | none => some p
      | some q => if DateTime.blt q.date p.date then some p else some q)
    none

/-! ## `src/utils/payments.py` -/

/-- The base date of `get_expiry_date` / `is_expired` / `is_expiring_soon`:
`last_payment.date` (a datetime) when a payment exists, else
`member.created_at.date()` (a date). -/
def baseDateOf (db : Db) (m : MemberRec) : PyDateVal :=
  match lastPayment (memberPayments db m) with
  | some p => .pdt p.date
  | none => .pd m.created_at.date

/-- `get_expiry_date(member)` (src/utils/payments.py lines 4-31). -/
def get_expiry_date (db : Db) (m : MemberRec) : PyDateVal :=
  let base := baseDateOf db m
  if m.payment_type == "Oylik" then
    base.addDays 30
  else if m.payment_type == "Premium" then
    .pd ⟨base.year, base.month, daysInMonth base.year base.month⟩
  else if m.payment_type == "Kunlik" then
    base
  else
    base.addDays 30

/-- `member.attendances.filter(attended_at__date__gte=start_date,
attended_at__date__lte=expiry).count()` (payments.py lines 44-47 and
73-76): `attended_at` is a `DateField` and Django registers the `date`
lookup only on `DateTimeField`, so building this queryset raises
`FieldError` before any row is read.  The arguments are kept for shape
only. -/
def attendCountInRange (_atts : List AttRow) (_m : MemberRec)
    (_lo _hi : PyDateVal) : Except PyErr Nat :=
  .error .fieldError

/-- `is_expired(member, as_of_date)` (src/utils/payments.py lines 34-56).
The Monthly branch evaluates the attendance count first — which raises
`FieldError`, since the filter uses `attended_at__date` on a `DateField` —
and only then the short-circuiting `or`, whose date comparison would raise
`TypeError` when the expiry is a datetime. -/
def is_expired (db : Db) (atts : List AttRow) (m : MemberRec)
    (as_of : Date) : Except PyErr Bool :=
  let expiry := get_expiry_date db m
  if m.payment_type == "Oylik" then do
    let start := baseDateOf db m
    let cnt ← attendCountInRange atts m start expiry
    if 12 ≤ cnt then pure true
    else pyGtDate as_of expiry
  else if m.payment_type == "Premium" then
    pyGtDate as_of expiry
  else if m.payment_type == "Kunlik" then
    pyGtDate as_of expiry
  else
    .ok false

/-- `is_expiring_soon(member, threshold_days, as_of_date)`
(src/utils/payments.py lines 59-86).  `days_left` is computed before the
expiry check, so a datetime-valued expiry raises `TypeError` up front. -/
def is_expiring_soon (db : Db) (atts : List AttRow) (m : MemberRec)
    (threshold : Int) (as_of : Date) : Except PyErr Bool := do
  let expiry := get_expiry_date db m
  let days_left ← pySubDays expiry as_of
  let expired ← is_expired db atts m as_of
  if expired then
    return false
  if m.payment_type == "Oylik" then do
    let start := baseDateOf db m
    let cnt ← attendCountInRange atts m start expiry
    let visits_left : Int := 12 - cnt
    return ((0 ≤ days_left && days_left ≤ threshold) || visits_left ≤ 3)
  else if m.payment_type == "Premium" then
    return (0 ≤ days_left && days_left ≤ threshold)
  else if m.payment_type == "Kunlik" then
    return (days_left == 0)
  else
    return false

/-! ## Spec-side definitions

These follow the wording of the specification (section 4.1/4.2 and the
claims), to be compared with the embedded code.  They are phrased directly
over calendar dates. -/

/-- Spec: "the **anchor date** — the date of the member's most recent
payment, or their enrollment date if no payment exists". -/
def specAnchor (db : Db) (m : MemberRec) : Date :=
  match lastPayment (memberPayments db m) with
  | some p => p.date.date
  | none => m.created_at.date

/-- Spec: the expiry date derived from the anchor — "Monthly: anchor + 30
days.  Premium: the last calendar day of the anchor's month.  Daily: the
anchor date itself.  Unknown/fallback plan type: treat as Monthly (anchor +
30 days)."  The plan-type strings are Oylik (Monthly), Premium, Kunlik
(Daily). -/
def specExpiry (db : Db) (m : MemberRec) : Date :=
  let anchor := specAnchor db m
  if m.payment_type == "Oylik" then
    anchor.addDays 30
  else if m.payment_type == "Premium" then
    ⟨anchor.year, anchor.month, daysInMonth anchor.year anchor.month⟩
  else if m.payment_type == "Kunlik" then
    anchor
  else
    anchor.addDays 30

/-! ### Helper lemmas relating the code to the spec-side date arithmetic -/

theorem PyDateVal.datePart_addDays (v : PyDateVal) (n : Int) :
    (v.addDays n).datePart = v.datePart.addDays n := by
  cases v <;> rfl

theorem baseDateOf_datePart (db : Db) (m : MemberRec) :
    (baseDateOf db m).datePart = specAnchor db m := by
  unfold baseDateOf specAnchor
  cases lastPayment (memberPayments db m) <;> rfl

theorem get_expiry_date_datePart (db : Db) (m : MemberRec) :
    (get_expiry_date db m).datePart = specExpiry db m := by
  unfold get_expiry_date specExpiry
  rw [← baseDateOf_datePart db m]
  by_cases h1 : m.payment_type == "Oylik"
  · cases baseDateOf db m <;>
      simp [h1, PyDateVal.addDays, PyDateVal.datePart]
  · by_cases h2 : m.payment_type == "Premium"
    · cases baseDateOf db m <;>
        simp [h1, h2, PyDateVal.year, PyDateVal.month, PyDateVal.datePart]
    · by_cases h3 : m.payment_type == "Kunlik"
      · cases baseDateOf db m <;> simp [h1, h2, h3, PyDateVal.datePart]
      · cases baseDateOf db m <;>
          simp [h1, h2, h3, PyDateVal.addDays, PyDateVal.datePart]

/-! ## Attendance persistence (`src/attendance/models.py`)

`Attendance.Meta` declares

```
UniqueConstraint(fields=['member'], condition=Q(state=True),
                 include=['attended_at'], ...)
```

`include` adds covering columns to the index but contributes nothing to
uniqueness, so the storage-level constraint is: at most one `state=True`
attendance row per member.

`Attendance.save` additionally runs an application-level duplicate check
before writing.  For a `state=True` instance it builds the filter
`Attendance.all_objects.filter(member=..., attended_at__date=..., state=True)`,
and `attended_at__date` on the `DateField` raises `FieldError` at queryset
construction, before anything is written — so no active attendance row is
ever inserted through `save`, and the insert never reaches the partial
unique constraint.  (On an already-stored instance the argument expression
`self.attended_at.date()` would already raise `AttributeError`, since the
stored value is a `datetime.date`.)  With `state=False` the check is skipped
and the write commits. -/

/-- Exceptions that can escape the embedded storage layer and views. -/
inductive UncaughtErr where
  | typeError
  | fieldError
  | attributeError
  | multipleObjectsReturned
deriving DecidableEq, Repr

/-- An exception raised inside the expiry code propagates unchanged into the
view. -/
def UncaughtErr.ofPy : PyErr → UncaughtErr
  | .typeError => .typeError
  | .fieldError => .fieldError

/-- The mutable attendance store: the `Attendance` table plus the id
sequence. -/
structure St where
  rows : List AttRow
  nextId : Nat
deriving Repr

/-- `Attendance(member=mid, state=stFlag).save()` on a fresh instance.  For
`state=True` the application-level check (models.py lines 39-49) builds an
`attended_at__date` filter on the `DateField`, raising `FieldError` before
any write — the insert, and the partial unique constraint behind it, are
never reached.  For `state=False` the check is skipped and the insert
commits (`auto_now_add` stamps `attended_at` with today's date; an inactive
row is outside the partial unique index). -/
def attendanceInsert (st : St) (mid : Nat) (stFlag : Bool) (today : Date) :
    Except UncaughtErr (St × Nat) :=
  if stFlag then
    .error .fieldError
  else
    .ok (⟨st.rows ++ [⟨st.nextId, mid, today, stFlag⟩], st.nextId + 1⟩,
      st.nextId)

/-- `save()` on an already-stored row after setting `state := newState`.
With `state=True` the duplicate check raises before any write — the
argument expression `self.attended_at.date()` is an `AttributeError` on the
stored `datetime.date`; with `state=False` the check is skipped and the
update commits (deactivating a row never violates the partial unique
constraint). -/
def attendanceResave (st : St) (rowId : Nat) (newState : Bool) : St :=
  match st.rows.find? (fun r => r.id == rowId) with
  | none => st
  | some _ =>
    if newState then
      st
    else
      ⟨st.rows.map
        (fun r => if r.id == rowId then { r with state := false } else r),
        st.nextId⟩

/-! ## The check-in transaction (`src/attendance/views.py`,
`CheckInAPIView.post`) -/

/-- The outcome categories of a check-in request.  `serverError` stands for
an exception that escapes the view uncaught (Django renders it as a generic
500, not one of the four business outcomes). -/
inductive CheckInResult where
  | invalidInput
  | notFound
  | planExpired
  | duplicate
  | created (attId : Nat)
  | serverError (e : UncaughtErr)
deriving DecidableEq, Repr

/-- `Member.objects.get(pin_code=code, state=True)`:  `DoesNotExist` is
caught and turned into the 404 response; `MultipleObjectsReturned` is not
caught. -/
def lookupMember (db : Db) (code : String) : Except CheckInResult MemberRec :=
  match db.members.filter (fun u => u.pin_code == code && u.state) with
  | [] => .error .notFound
  | [u] => .ok u
  | _ :: _ :: _ => .error (.serverError .multipleObjectsReturned)

/-- Step 4 of `CheckInAPIView.post` (views.py lines 81-86): the same-day
duplicate pre-check `Attendance.all_objects.filter(member=member,
attended_at__date=today, state=True).exists()`.  `attended_at` is a
`DateField`, so the `attended_at__date` lookup raises `FieldError` when the
queryset is built — every request that reaches this step fails with an
uncaught exception.  Arguments kept for shape only. -/
def duplicatePreCheck (_st : St) (_mid : Nat) (_today : Date) :
    Except PyErr Bool :=
  .error .fieldError

/-- Steps 1-4 of `CheckInAPIView.post`: PIN format check, member lookup,
expiry check, same-day duplicate pre-check.  Exceptions from the expiry
code or the pre-check propagate uncaught. -/
def checkInPre (db : Db) (st : St) (pin : Option String) (today : Date) :
    Except CheckInResult MemberRec := do
  match pin with
  | none => .error .invalidInput
  | some code =>
    if code == "" || code.length != 4 then
      .error .invalidInput
    else do
      let m ← lookupMember db code
      match is_expired db st.rows m today with
      | .error e => .error (.serverError (UncaughtErr.ofPy e))
      | .ok true => .error .planExpired
      | .ok false =>
        match duplicatePreCheck st m.id today with
        | .error e => .error (.serverError (UncaughtErr.ofPy e))
        | .ok true => .error .duplicate
        | .ok false => pure m

/-- Step 5 of `CheckInAPIView.post`: `Attendance.objects.create(...)`.  The
view wraps it in no `try`/`except`, so a failure surfaces as an uncaught
exception. -/
def checkInCommit (st : St) (m : MemberRec) (today : Date) :
    Except UncaughtErr (St × Nat) :=
  attendanceInsert st m.id true today

/-- The whole check-in transaction executed sequentially: steps 1-4 and the
commit read and write the same store. -/
def checkIn (db : Db) (st : St) (pin : Option String) (today : Date) :
    St × CheckInResult :=
  match checkInPre db st pin today with
  | .error r => (st, r)
  | .ok m =>
    match checkInCommit st m today with
    | .error e => (st, .serverError e)
    | .ok (st', newId) => (st', .created newId)

/-- Two concurrent check-ins for the same PIN on the same day: both run
steps 1-4 against the same snapshot `st`, then the commits are serialized by
the storage layer — the first wins, the second runs against the updated
store.  Returns the two responses. -/
def checkInRace (db : Db) (st : St) (pin : Option String) (today : Date) :
    CheckInResult × CheckInResult :=
  match checkInPre db st pin today with
  | .error r => (r, r)
  | .ok m =>
    match checkInCommit st m today with
    | .error e => (.serverError e, .serverError e)
    | .ok (st1, id1) =>
      match checkInCommit st1 m today with
      | .error e => (.created id1, .serverError e)
      | .ok (_, id2) => (.created id1, .created id2)

/-! ## Sequences of operations over the attendance store -/

/-- The operations that touch the attendance table: a kiosk check-in, a
direct save of a fresh `Attendance` instance, and a re-save of a stored row
with a new `state` flag. -/
inductive AttOp where
  | checkin (pin : Option String) (today : Date)
  | create (memberId : Nat) (stFlag : Bool) (today : Date)
  | resave (rowId : Nat) (newState : Bool)

/-- One operation against the store; a rejected write leaves the store
unchanged. -/
def attStep (db : Db) (st : St) : AttOp → St
  | .checkin pin today => (checkIn db st pin today).1
  | .create mid stFlag today =>
    match attendanceInsert st mid stFlag today with
    | .ok (st', _) => st'
    | .error _ => st
  | .resave rid newState => attendanceResave st rid newState

/-- The store reached from a starting store by a sequence of operations. -/
def attRun (db : Db) (st0 : St) (ops : List AttOp) : St :=
  ops.foldl (attStep db) st0

/-! ## Report aggregation
(`src/reports/management/commands/generate_reports.py`)

`Payment.date` and `Costs.date` are `DateTimeField`s, so the daily filter
`date=report_date` compares against midnight of the report date, and the
monthly range `date__gte=first_day, date__lte=last_day` spans midnight of
the first day to midnight of the last.  `attended_at` is a `DateField`, so
attendance filters compare calendar dates directly.  The
`subscriptions__end_date__range` filter joins the raw `Subscription` table
(related-field joins do not apply the related model's default manager). -/

/-- Midnight of a calendar day — the datetime a `DateTimeField` filter
compares against when handed a `date`. -/
def dtMidnight (d : Date) : DateTime := ⟨d, 0⟩

/-- Non-strict ordering of datetimes. -/
def DateTime.ble (a b : DateTime) : Bool :=
  a == b || DateTime.blt a b

/-- `aggregate(total=Sum('amount'))['total']` — `None` on an empty
queryset. -/
def aggSum (l : List Int) : Option Int :=
  if l.isEmpty then none else some l.sum

/-- `... or 0` applied to an aggregate result. -/
def orZero : Option Int → Int
  | none => 0
  | some n => n

/-- A row of `reports.DailyReport`. -/
structure DailyRow where
  date : Date
  income : Int
  expense : Int
  new_members : Nat
  renewals : Nat
  total_members : Nat
  check_ins : Nat
  expiring_soon : Nat
  active_members : Nat
  male_members : Nat
  female_members : Nat
  cash_income : Int
  card_income : Int
deriving DecidableEq, Repr

/-- A row of `reports.MonthlyReport` (`month` is the first day of the
month). -/
structure MonthlyRow where
  month : Date
  income : Int
  expense : Int
  new_members : Nat
  renewals : Nat
  total_members : Nat
  check_ins : Nat
  expiring_soon : Nat
  active_members : Nat
  male_members : Nat
  female_members : Nat
  cash_income : Int
  card_income : Int
deriving DecidableEq, Repr

/-- `Payment.objects` — the `ActiveManager` queryset. -/
def paymentQs (db : Db) : List PaymentRec :=
  db.payments.filter (fun p => p.state)

/-- `Costs.objects` — the `ActiveManager` queryset. -/
def costQs (db : Db) : List CostRec :=
  db.costs.filter (fun c => c.state)

/-- `Attendance.objects` — the `AttendanceManager` queryset. -/
def attQs (atts : List AttRow) : List AttRow :=
  atts.filter (fun a => a.state)

/-- The field values of `Command.generate_daily_report` (lines 44-61),
computed from the database and the attendance table for a target date. -/
def dailyRow (db : Db) (atts : List AttRow) (d : Date) : DailyRow :=
  { date := d
    income := orZero (aggSum (((paymentQs db).filter
        (fun p => p.date == dtMidnight d && p.state)).map (fun p => p.amount)))
    cash_income := orZero (aggSum (((paymentQs db).filter
        (fun p => p.date == dtMidnight d && p.state &&
          p.payment_type == "cash")).map (fun p => p.amount)))
    card_income := orZero (aggSum (((paymentQs db).filter
        (fun p => p.date == dtMidnight d && p.state &&
          p.payment_type == "card")).map (fun p => p.amount)))
    expense := orZero (aggSum (((costQs db).filter
        (fun c => c.date == dtMidnight d && c.state)).map
          (fun c => c.quantity)))
    new_members := (db.members.filter
        (fun u => u.created_at.date == d && u.state)).length
    renewals := ((paymentQs db).filter
        (fun p => p.date == dtMidnight d && p.state &&
          p.payment_type == "renewal")).length
    total_members := (db.members.filter (fun u => u.state)).length
    check_ins := ((attQs atts).filter
        (fun a => a.attended_at == d && a.state)).length
    expiring_soon := (db.members.filter
        (fun u => u.state && db.subs.any
          (fun s => s.member == u.id && Date.ble d s.end_date &&
            Date.ble s.end_date (d.addDays 3)))).length
    active_members := (((attQs atts).filter
        (fun a => a.attended_at == d && a.state)).map
          (fun a => a.member)).dedup.length
    male_members := (db.members.filter
        (fun u => u.state && u.gender == "male")).length
    female_members := (db.members.filter
        (fun u => u.state && u.gender == "female")).length }

/-- `first_day`/`last_day` of `Command.generate_monthly_report` (lines
84-89): the month argument itself and the day before the first of the next
month. -/
def monthLastDay (month : Date) : Date :=
  let next_month : Date :=
    if month.month == 12 then ⟨month.year + 1, 1, 1⟩
    else ⟨month.year, month.month + 1, 1⟩
  next_month.addDays (-1)

/-- The field values of `Command.generate_monthly_report` (lines 90-107). -/
def monthlyRow (db : Db) (atts : List AttRow) (month : Date) : MonthlyRow :=
  let first_day := month
  let last_day := monthLastDay month
  { month := month
    income := orZero (aggSum (((paymentQs db).filter
        (fun p => DateTime.ble (dtMidnight first_day) p.date &&
          DateTime.ble p.date (dtMidnight last_day) && p.state)).map
            (fun p => p.amount)))
    cash_income := orZero (aggSum (((paymentQs db).filter
        (fun p => DateTime.ble (dtMidnight first_day) p.date &&
          DateTime.ble p.date (dtMidnight last_day) && p.state &&
          p.payment_type == "cash")).map (fun p => p.amount)))
    card_income := orZero (aggSum (((paymentQs db).filter
        (fun p => DateTime.ble (dtMidnight first_day) p.date &&
          DateTime.ble p.date (dtMidnight last_day) && p.state &&
          p.payment_type == "card")).map (fun p => p.amount)))
    expense := orZero (aggSum (((costQs db).filter
        (fun c => DateTime.ble (dtMidnight first_day) c.date &&
          DateTime.ble c.date (dtMidnight last_day) && c.state)).map
            (fun c => c.quantity)))
    new_members := (db.members.filter
        (fun u => Date.ble first_day u.created_at.date &&
          Date.ble u.created_at.date last_day && u.state)).length
    renewals := ((paymentQs db).filter
        (fun p => DateTime.ble (dtMidnight first_day) p.date &&
          DateTime.ble p.date (dtMidnight last_day) && p.state &&
          p.payment_type == "renewal")).length
    total_members := (db.members.filter (fun u => u.state)).length
    check_ins := ((attQs atts).filter
        (fun a => Date.ble first_day a.attended_at &&
          Date.ble a.attended_at last_day && a.state)).length
    expiring_soon := (db.members.filter
        (fun u => u.state && db.subs.any
          (fun s => s.member == u.id && Date.ble last_day s.end_date &&
            Date.ble s.end_date (last_day.addDays 3)))).length
    active_members := (((attQs atts).filter
        (fun a => Date.ble first_day a.attended_at &&
          Date.ble a.attended_at last_day && a.state)).map
          (fun a => a.member)).dedup.length
    male_members := (db.members.filter
        (fun u => u.state && u.gender == "male")).length
    female_members := (db.members.filter
        (fun u => u.state && u.gender == "female")).length }

/-- `Model.objects.update_or_create(key..., defaults=...)`: look the row up
by key; update it in place if it is unique, insert it if absent,
`MultipleObjectsReturned` if the key is ambiguous. -/
def upsertBy {α κ : Type} [BEq κ] (key : α → κ) (rows : List α) (row : α) :
    Except UncaughtErr (List α) :=
  match (rows.filter (fun r => key r == key row)).length with
  | 0 => .ok (rows ++ [row])
  | 1 => .ok (rows.map (fun r => if key r == key row then row else r))
  | _ + 2 => .error .multipleObjectsReturned

/-- `generate_daily_report(date)`: compute the aggregates and upsert them
keyed by the date. -/
def generateDailyReport (db : Db) (atts : List AttRow) (d : Date)
    (store : List DailyRow) : Except UncaughtErr (List DailyRow) :=
  upsertBy (fun r => r.date) store (dailyRow db atts d)

/-- `generate_monthly_report(month)`: compute the aggregates and upsert them
keyed by the month. -/
def generateMonthlyReport (db : Db) (atts : List AttRow) (month : Date)
    (store : List MonthlyRow) : Except UncaughtErr (List MonthlyRow) :=
  upsertBy (fun r => r.month) store (monthlyRow db atts month)

/-- The daily report fields as the (amended) specification words them:
plain single-pass aggregates over the underlying tables.  `cash_income` /
`card_income` select on the `payment_type` (plan-type) field, the
expiring-soon count selects members with a raw `Subscription` row ending
within three days, and the gender counts match the literal strings
`male` / `female`. -/
def specDailyRow (db : Db) (atts : List AttRow) (d : Date) : DailyRow :=
  { date := d
    income := ((db.payments.filter
        (fun p => p.state && p.date == dtMidnight d)).map
          (fun p => p.amount)).sum
    cash_income := ((db.payments.filter
        (fun p => p.state && p.payment_type == "cash" &&
          p.date == dtMidnight d)).map (fun p => p.amount)).sum
    card_income := ((db.payments.filter
        (fun p => p.state && p.payment_type == "card" &&
          p.date == dtMidnight d)).map (fun p => p.amount)).sum
    expense := ((db.costs.filter
        (fun c => c.state && c.date == dtMidnight d)).map
          (fun c => c.quantity)).sum
    new_members := (db.members.filter
        (fun u => u.state && u.created_at.date == d)).length
    renewals := (db.payments.filter
        (fun p => p.state && p.payment_type == "renewal" &&
          p.date == dtMidnight d)).length
    total_members := (db.members.filter (fun u => u.state)).length
    check_ins := (atts.filter
        (fun a => a.state && a.attended_at == d)).length
    expiring_soon := (db.members.filter
        (fun u => u.state && db.subs.any
          (fun s => s.member == u.id && Date.ble d s.end_date &&
            Date.ble s.end_date (d.addDays 3)))).length
    active_members := ((atts.filter
        (fun a => a.state && a.attended_at == d)).map
          (fun a => a.member)).dedup.length
    male_members := (db.members.filter
        (fun u => u.state && u.gender == "male")).length
    female_members := (db.members.filter
        (fun u => u.state && u.gender == "female")).length }

/-! ## Claims -/

/-- Fixture for C2/C7: one monthly member whose only payment carries a
timestamp at noon. -/
def c7m : MemberRec := ⟨1, "1234", "Oylik", "E", ⟨⟨2024, 12, 1⟩, 0⟩, true⟩

/-- Fixture for C2/C7: the database holding `c7m`'s payment made
2025-01-10 12:00. -/
def c7db : Db :=
  ⟨[c7m], [⟨1, 100, ⟨⟨2025, 1, 10⟩, 43200⟩, "Oylik", "cash", true⟩], [], []⟩

/-- C2 (confirmed): for every member, the calendar date of the computed
expiry equals the spec's rule — anchor + 30 days for Monthly (`Oylik`) and
for unknown plan types, the last day of the anchor's month for Premium, the
anchor itself for Daily (`Kunlik`) — where the anchor is the date of the
most recent active payment, or the enrollment date without payments. -/
theorem C2_expiry_matches_spec (db : Db) (m : MemberRec) :
    (get_expiry_date db m).datePart = specExpiry db m :=
  get_expiry_date_datePart db m

/-- C7 (code bug): `get_expiry_date` is total, but with a payment on file
and a non-Premium plan it returns a `datetime` — `Payment.date` is a
`DateTimeField` — not a calendar `Date`.  Downstream, `is_expired` for this
Monthly member raises `FieldError` building the `attended_at__date`
attendance filter, and `is_expiring_soon` raises `TypeError` subtracting
the datetime-valued expiry from a date at payments.py line 64. -/
theorem C7_expiry_leaks_datetime :
    get_expiry_date c7db c7m = .pdt ⟨⟨2025, 2, 9⟩, 43200⟩ ∧
    is_expired c7db [] c7m ⟨2025, 2, 20⟩ = .error .fieldError ∧
    is_expiring_soon c7db [] c7m 3 ⟨2025, 2, 20⟩ = .error .typeError :=
  ⟨rfl, rfl, rfl⟩

/-- Fixture for C4: an eligible daily-plan member enrolled on the day of the
race. -/
def c4db : Db := ⟨[⟨9, "1234", "Kunlik", "E", ⟨⟨2025, 3, 5⟩, 0⟩, true⟩],
  [], [], []⟩

/-- C4 (code bug): the check-in transaction contains no handler that could
translate a storage-level uniqueness failure into `DuplicateCheckIn` — and
at the claimed race input it never even reaches the insert: both concurrent
requests raise `FieldError` at the `attended_at__date` duplicate pre-check
(views.py line 84), surfacing as uncaught generic failures; neither request
yields the `DuplicateCheckIn` outcome the spec requires. -/
theorem C4_race_surfaces_generic_failure :
    checkInRace c4db ⟨[], 0⟩ (some "1234") ⟨2025, 3, 5⟩ =
      (.serverError .fieldError, .serverError .fieldError) ∧
    (checkInRace c4db ⟨[], 0⟩ (some "1234") ⟨2025, 3, 5⟩).2 ≠
      .duplicate :=
  ⟨rfl, by decide⟩

/-- Fixture for C5: an active member whose PIN is the non-numeric string
`abcd`. -/
def c5db : Db := ⟨[⟨7, "abcd", "Kunlik", "E", ⟨⟨2025, 3, 5⟩, 0⟩, true⟩],
  [], [], []⟩

/-- C5 (counterexample): the claim says a PIN with a non-digit character is
rejected as `InvalidInput` before any storage lookup; the code only checks
presence and length 4, so the 4-character PIN `abcd` passes the gate,
resolves the member, runs the expiry check, and then dies with the uncaught
`FieldError` of the duplicate pre-check — anything but `InvalidInput`. -/
theorem C5_counterexample :
    (checkIn c5db ⟨[], 0⟩ (some "abcd") ⟨2025, 3, 5⟩).2 =
      .serverError .fieldError ∧
    (checkIn c5db ⟨[], 0⟩ (some "abcd") ⟨2025, 3, 5⟩).2 ≠
      .invalidInput :=
  ⟨rfl, by decide⟩

/-- Fixture for C1: a member with an unknown plan-type string, no payments,
enrolled 2025-01-01. -/
def c1m : MemberRec := ⟨3, "9999", "Boshqa", "E", ⟨⟨2025, 1, 1⟩, 0⟩, true⟩

/-- Fixture for C1: database holding only `c1m`. -/
def c1db : Db := ⟨[c1m], [], [], []⟩

/-- C1 (counterexample): the claim extends the Expired rule to unknown plan
types (treated as Monthly).  On 2025-03-01, one month past the fallback
expiry 2025-01-31, the code still answers "not expired": `is_expired` falls
through to `return False` for any unknown plan type. -/
theorem C1_counterexample :
    is_expired c1db [] c1m ⟨2025, 3, 1⟩ = .ok false ∧
    Date.blt (specExpiry c1db c1m) ⟨2025, 3, 1⟩ = true :=
  ⟨rfl, rfl⟩

/-- Fixture for C6: a daily-plan member, no payments, enrolled (hence
expiring) 2025-01-10. -/
def c6m : MemberRec := ⟨4, "4444", "Kunlik", "E", ⟨⟨2025, 1, 10⟩, 0⟩, true⟩

/-- Fixture for C6: database holding only `c6m`. -/
def c6db : Db := ⟨[c6m], [], [], []⟩

/-- C6 (counterexample): two days before expiry a Daily member is not
expired and has `days_left = 2 ≤ 3`, so the claim's uniform rule classifies
them ExpiringSoon — but the Daily branch of the code requires
`days_left == 0` and answers false. -/
theorem C6_counterexample :
    is_expiring_soon c6db [] c6m 3 ⟨2025, 1, 8⟩ = .ok false ∧
    is_expired c6db [] c6m ⟨2025, 1, 8⟩ = .ok false ∧
    dateSubDays (specExpiry c6db c6m) ⟨2025, 1, 8⟩ = 2 :=
  ⟨rfl, rfl, rfl⟩

/-- Fixture for C9: one active member whose gender is stored as the
`Member.Gender.MALE` choice value `E`. -/
def c9db : Db := ⟨[⟨1, "1111", "Oylik", "E", ⟨⟨2025, 1, 1⟩, 0⟩, true⟩],
  [], [], []⟩

/-- C9 (counterexample): the claim says `male_members` counts active male
members; genders are stored as the choice codes `E`/`A`, but the report
filters `gender='male'`, so the one active male member is not counted. -/
theorem C9_counterexample :
    (dailyRow c9db [] ⟨2025, 6, 1⟩).male_members = 0 ∧
    (c9db.members.filter (fun u => u.state && u.gender == "E")).length
      = 1 :=
  ⟨rfl, rfl⟩

/-- C10 (confirmed): in every generated daily and monthly report the
distinct-member count (`active_members`) is at most the attendance count
(`check_ins`) for the same period. -/
theorem C10_active_members_le_check_ins :
    (∀ db atts d,
      (dailyRow db atts d).active_members ≤ (dailyRow db atts d).check_ins)
    ∧ (∀ db atts month,
      (monthlyRow db atts month).active_members ≤
        (monthlyRow db atts month).check_ins) := by
  constructor
  · intro db atts d
    calc (dailyRow db atts d).active_members
        ≤ (((attQs atts).filter
            (fun a => a.attended_at == d && a.state)).map
              (fun a => a.member)).length := List.Sublist.length_le
                (List.dedup_sublist _)
      _ = (dailyRow db atts d).check_ins := List.length_map _ _
  · intro db atts month
    calc (monthlyRow db atts month).active_members
        ≤ (((attQs atts).filter
            (fun a => Date.ble month a.attended_at &&
              Date.ble a.attended_at (monthLastDay month) && a.state)).map
              (fun a => a.member)).length := List.Sublist.length_le
                (List.dedup_sublist _)
      _ = (monthlyRow db atts month).check_ins := List.length_map _ _

/-- The PIN format gate of `CheckInAPIView.post`:
`if not code or len(code) != 4` — presence and length only, no digit
check. -/
def pinFormatRejected (pin : Option String) : Bool :=
  match pin with
  | none => true
  | some code => code == "" || code.length != 4

theorem exceptBind_ok {ε α β : Type} (a : α) (f : α → Except ε β) :
    (Except.ok a >>= f : Except ε β) = f a := rfl

theorem exceptBind_error {ε α β : Type} (e : ε) (f : α → Except ε β) :
    ((Except.error e : Except ε α) >>= f) = .error e := rfl

theorem exceptPure {ε α : Type} (a : α) :
    (pure a : Except ε α) = .ok a := rfl

theorem lookupMember_error_ne_invalid (db : Db) (code : String)
    (r : CheckInResult) (h : lookupMember db code = .error r) :
    r ≠ .invalidInput := by
  unfold lookupMember at h
  split at h
  · exact (Except.error.inj h) ▸ (by simp)
  · exact absurd h (by simp)
  · exact (Except.error.inj h) ▸ (by simp)

/-- C5 (amended): a missing/empty or non-4-character PIN is rejected as
`InvalidInput` with the store untouched and without consulting the database
(for every database and store); every 4-character PIN — digits or not —
passes the format gate, and the transaction never answers `InvalidInput`
for it. -/
theorem C5_pin_gate (pin : Option String) :
    (pinFormatRejected pin = true →
      ∀ db st today, checkIn db st pin today = (st, .invalidInput)) ∧
    (pinFormatRejected pin = false →
      ∀ db st today, (checkIn db st pin today).2 ≠ .invalidInput) := by
  constructor
  · intro h db st today
    match pin with
    | none => rfl
    | some code =>
      simp only [pinFormatRejected] at h
      simp [checkIn, checkInPre, h]
  · intro h db st today hEq
    match pin with
    | none => simp [pinFormatRejected] at h
    | some code =>
      simp only [pinFormatRejected] at h
      cases hL : lookupMember db code with
      | error r =>
        have hr := lookupMember_error_ne_invalid db code r hL
        simp [checkIn, checkInPre, h, hL] at hEq
        exact hr hEq
      | ok u =>
        cases hX : is_expired db st.rows u today with
        | error e =>
          simp [checkIn, checkInPre, h, hL, hX, exceptBind_ok] at hEq
        | ok b =>
          cases b
          · simp [checkIn, checkInPre, duplicatePreCheck, h, hL, hX,
              exceptBind_ok] at hEq
          · simp [checkIn, checkInPre, h, hL, hX, exceptBind_ok] at hEq

/-- No operation on the attendance store can increase the number of rows
satisfying a predicate that requires `state=True`: a `state=True` save dies
in the `FieldError` of its app-level check before writing, a `state=False`
save only inserts an inactive row, and a re-save either raises or
deactivates. -/
theorem attStep_countP_le (db : Db) (st : St) (op : AttOp)
    (p : AttRow → Bool) (hp : ∀ r, p r = true → r.state = true) :
    ((attStep db st op).rows.countP p) ≤ st.rows.countP p := by
  cases op with
  | checkin pin today =>
    show ((checkIn db st pin today).1.rows.countP p) ≤ st.rows.countP p
    unfold checkIn
    cases checkInPre db st pin today with
    | error r => exact Nat.le_refl _
    | ok u =>
      dsimp only
      rw [show checkInCommit st u today = .error .fieldError from rfl]
  | create mid s today =>
    dsimp only [attStep]
    cases s with
    | true =>
      rw [show attendanceInsert st mid true today = .error .fieldError
        from rfl]
    | false =>
      rw [show attendanceInsert st mid false today =
        .ok (⟨st.rows ++ [⟨st.nextId, mid, today, false⟩], st.nextId + 1⟩,
          st.nextId) from rfl]
      dsimp only
      rw [List.countP_append]
      have h0 : List.countP p [⟨st.nextId, mid, today, false⟩] = 0 := by
        rw [List.countP_eq_zero]
        intro a ha hpa
        rw [List.mem_singleton] at ha
        subst ha
        have hs := hp _ hpa
        simp at hs
      rw [h0]
      omega
  | resave rid ns =>
    dsimp only [attStep]
    unfold attendanceResave
    cases st.rows.find? (fun r => r.id == rid) with
    | none => exact Nat.le_refl _
    | some r =>
      cases ns with
      | true => exact Nat.le_refl _
      | false =>
        simp only [Bool.false_eq_true, if_false]
        simp only [List.countP_map]
        refine List.countP_mono_left ?_
        intro x _ hx
        simp only [Function.comp] at hx
        by_cases hid : (x.id == rid) = true
        · rw [if_pos hid] at hx
          have hs := hp _ hx
          simp at hs
        · rw [if_neg hid] at hx
          exact hx

/-- C3 (confirmed): from any store with at most one active attendance per
(member, calendar day), every sequence of check-ins and attendance saves
preserves that bound; and an insert of a second active attendance for a
member who already has an active one that day is rejected rather than
stored — in fact every `state=True` save raises `FieldError` in its
`attended_at__date` application check before any write, so the write path
never even reaches the per-member partial unique constraint. -/
theorem C3_one_active_per_member_day :
    (∀ (db : Db) (st0 : St) (ops : List AttOp) (m : Nat) (d : Date),
      st0.rows.countP
        (fun r => r.state && r.member == m && r.attended_at == d) ≤ 1 →
      (attRun db st0 ops).rows.countP
        (fun r => r.state && r.member == m && r.attended_at == d) ≤ 1) ∧
    (∀ (st : St) (mid : Nat) (d : Date),
      st.rows.any
        (fun r => r.state && r.member == mid && r.attended_at == d)
          = true →
      attendanceInsert st mid true d = .error .fieldError) := by
  constructor
  · intro db st0 ops m d h0
    have hp : ∀ r : AttRow,
        (r.state && r.member == m && r.attended_at == d) = true →
        r.state = true := by
      intro r hr
      have h1 := (Bool.and_eq_true _ _ |>.mp hr).1
      exact (Bool.and_eq_true _ _ |>.mp h1).1
    have main : ∀ (l : List AttOp) (st : St),
        st.rows.countP
          (fun r => r.state && r.member == m && r.attended_at == d) ≤ 1 →
        (l.foldl (attStep db) st).rows.countP
          (fun r => r.state && r.member == m && r.attended_at == d) ≤ 1 := by
      intro l
      induction l with
      | nil => intro st hst; exact hst
      | cons op rest ih =>
        intro st hst
        exact ih (attStep db st op)
          (le_trans (attStep_countP_le db st op _ hp) hst)
    exact main ops st0 h0
  · intro st mid d _
    rfl

/-- Witness for C3: two same-day insert attempts for member 1 starting from
an empty store leave at most one active row, and the insert against a store
already holding an active row for member 1 on that day errors rather than
stores. -/
theorem C3_one_active_per_member_day_witness :
    (attRun ⟨[], [], [], []⟩ ⟨[], 0⟩
        [AttOp.create 1 true ⟨2025, 1, 1⟩,
          AttOp.create 1 true ⟨2025, 1, 1⟩]).rows.countP
      (fun r => r.state && r.member == 1 &&
        r.attended_at == (⟨2025, 1, 1⟩ : Date)) ≤ 1 ∧
    attendanceInsert ⟨[⟨0, 1, ⟨2025, 1, 1⟩, true⟩], 1⟩ 1 true ⟨2025, 1, 1⟩ =
      .error .fieldError :=
  ⟨C3_one_active_per_member_day.1 ⟨[], [], [], []⟩ ⟨[], 0⟩
      [AttOp.create 1 true ⟨2025, 1, 1⟩, AttOp.create 1 true ⟨2025, 1, 1⟩]
      1 ⟨2025, 1, 1⟩ (by decide),
    C3_one_active_per_member_day.2 ⟨[⟨0, 1, ⟨2025, 1, 1⟩, true⟩], 1⟩ 1
      ⟨2025, 1, 1⟩ (by decide)⟩

/-- Witness for C5: the 2-character PIN `12` is rejected without touching
the store, while the non-numeric 4-character PIN `abcd` passes the format
gate. -/
theorem C5_pin_gate_witness :
    checkIn c5db ⟨[], 0⟩ (some "12") ⟨2025, 3, 5⟩ =
      (⟨[], 0⟩, .invalidInput) ∧
    (checkIn c5db ⟨[], 0⟩ (some "abcd") ⟨2025, 3, 5⟩).2 ≠ .invalidInput :=
  ⟨(C5_pin_gate (some "12")).1 rfl c5db ⟨[], 0⟩ ⟨2025, 3, 5⟩,
    (C5_pin_gate (some "abcd")).2 rfl c5db ⟨[], 0⟩ ⟨2025, 3, 5⟩⟩

/-- C1 (amended): whenever `is_expired` returns a verdict `b`, the member's
plan is not Monthly (`Oylik`) — the Monthly branch always raises
`FieldError` in its `attended_at__date` attendance-count query, so Monthly
members are never classified — and `b` is true iff the plan is Premium or
Daily (`Kunlik`) and as_of is strictly after the expiry date.  A member with
an unknown plan type is never Expired: the code falls through to
`return False` instead of treating the plan as Monthly. -/
theorem C1_expired_rule (db : Db) (atts : List AttRow) (m : MemberRec)
    (as_of : Date) (b : Bool)
    (h : is_expired db atts m as_of = .ok b) :
    m.payment_type ≠ "Oylik" ∧
    (b = true ↔
      ((m.payment_type = "Premium" ∨ m.payment_type = "Kunlik") ∧
        Date.blt (specExpiry db m) as_of = true)) := by
  unfold is_expired at h
  dsimp only at h
  by_cases h1 : (m.payment_type == "Oylik") = true
  · rw [if_pos h1] at h
    simp [attendCountInRange, exceptBind_error] at h
  · have hOy : ¬ m.payment_type = "Oylik" := fun hc => h1 (beq_iff_eq.mpr hc)
    refine ⟨hOy, ?_⟩
    by_cases h2 : (m.payment_type == "Premium") = true
    · have hPrem := beq_iff_eq.mp h2
      rw [if_neg h1, if_pos h2] at h
      cases hE : get_expiry_date db m with
      | pdt dt =>
        rw [hE] at h
        exact absurd h (by simp [pyGtDate])
      | pd dd =>
        rw [hE] at h
        have hb : Date.blt dd as_of = b := Except.ok.inj h
        have hdd : dd = specExpiry db m := by
          have hdp := get_expiry_date_datePart db m
          rw [hE] at hdp
          exact hdp
        rw [hdd] at hb
        constructor
        · intro hbt
          exact ⟨Or.inl hPrem, hb.trans hbt⟩
        · rintro ⟨_, hblt⟩
          rw [← hb]
          exact hblt
    · by_cases h3 : (m.payment_type == "Kunlik") = true
      · have hKun := beq_iff_eq.mp h3
        rw [if_neg h1, if_neg h2, if_pos h3] at h
        cases hE : get_expiry_date db m with
        | pdt dt =>
          rw [hE] at h
          exact absurd h (by simp [pyGtDate])
        | pd dd =>
          rw [hE] at h
          have hb : Date.blt dd as_of = b := Except.ok.inj h
          have hdd : dd = specExpiry db m := by
            have hdp := get_expiry_date_datePart db m
            rw [hE] at hdp
            exact hdp
          rw [hdd] at hb
          constructor
          · intro hbt
            exact ⟨Or.inr hKun, hb.trans hbt⟩
          · rintro ⟨_, hblt⟩
            rw [← hb]
            exact hblt
      · rw [if_neg h1, if_neg h2, if_neg h3] at h
        have hb : b = false := (Except.ok.inj h).symm
        subst hb
        constructor
        · intro hf
          exact absurd hf (by decide)
        · rintro ⟨hpk, _⟩
          cases hpk with
          | inl hP => exact absurd (beq_iff_eq.mpr hP) h2
          | inr hK => exact absurd (beq_iff_eq.mpr hK) h3

/-- Fixture for C1's witness: a Premium member, no payments, enrolled
2025-01-10 (expiry 2025-01-31). -/
def c1wm : MemberRec := ⟨5, "5555", "Premium", "E", ⟨⟨2025, 1, 10⟩, 0⟩, true⟩

/-- Fixture for C1's witness. -/
def c1wdb : Db := ⟨[c1wm], [], [], []⟩

/-- Witness for C1: the rule instantiated on 2025-02-10 for `c1wm`, where
`is_expired` answers true. -/
theorem C1_expired_rule_witness :
    c1wm.payment_type ≠ "Oylik" ∧
    (true = true ↔
      ((c1wm.payment_type = "Premium" ∨ c1wm.payment_type = "Kunlik") ∧
        Date.blt (specExpiry c1wdb c1wm) ⟨2025, 2, 10⟩ = true)) :=
  C1_expired_rule c1wdb [] c1wm ⟨2025, 2, 10⟩ true rfl

/-- C6 (amended): for a member not classified Expired, whenever
`is_expiring_soon` (default threshold 3) returns a verdict `b`, the
member's plan is not Monthly (`Oylik`) — a Monthly member's call raises
`TypeError` computing `days_left` when a payment exists, and otherwise
`FieldError` inside the `is_expired` attendance-count query, so it never
returns — and `b` is true iff the plan is Premium and
`0 ≤ days_left ≤ 3`, or the plan is Daily (`Kunlik`) and `days_left = 0` —
not `days_left ≤ 3` as the uniform rule would give.  Unknown plan types are
never ExpiringSoon. -/
theorem C6_expiring_soon_rule (db : Db) (atts : List AttRow) (m : MemberRec)
    (as_of : Date) (b : Bool)
    (hne : is_expired db atts m as_of = .ok false)
    (h : is_expiring_soon db atts m 3 as_of = .ok b) :
    m.payment_type ≠ "Oylik" ∧
    (b = true ↔
      ((m.payment_type = "Premium" ∧
          0 ≤ dateSubDays (specExpiry db m) as_of ∧
          dateSubDays (specExpiry db m) as_of ≤ 3) ∨
        (m.payment_type = "Kunlik" ∧
          dateSubDays (specExpiry db m) as_of = 0))) := by
  unfold is_expiring_soon at h
  cases hE : get_expiry_date db m with
  | pdt dt =>
    rw [hE] at h
    simp [pySubDays, exceptBind_error] at h
  | pd dd =>
    rw [hE] at h
    have hdd : dd = specExpiry db m := by
      have hdp := get_expiry_date_datePart db m
      rw [hE] at hdp
      exact hdp
    simp only [pySubDays, exceptBind_ok] at h
    rw [hne] at h
    simp only [exceptBind_ok, Bool.false_eq_true, if_false] at h
    by_cases h1 : (m.payment_type == "Oylik") = true
    · rw [if_pos h1] at h
      simp [attendCountInRange, exceptBind_error] at h
    · have hOy : ¬ m.payment_type = "Oylik" :=
        fun hc => h1 (beq_iff_eq.mpr hc)
      refine ⟨hOy, ?_⟩
      by_cases h2 : (m.payment_type == "Premium") = true
      · have hPrem := beq_iff_eq.mp h2
        rw [if_neg h1, if_pos h2] at h
        simp only [exceptPure, exceptBind_ok, Except.ok.injEq] at h
        subst hdd
        rw [← h]
        simp only [Bool.and_eq_true, decide_eq_true_eq]
        constructor
        · intro hx
          exact Or.inl ⟨hPrem, hx⟩
        · rintro (⟨_, hx⟩ | ⟨hK, _⟩)
          · exact hx
          · rw [hPrem] at hK
            exact absurd hK (by decide)
      · by_cases h3 : (m.payment_type == "Kunlik") = true
        · have hKun := beq_iff_eq.mp h3
          rw [if_neg h1, if_neg h2, if_pos h3] at h
          simp only [exceptPure, exceptBind_ok, Except.ok.injEq] at h
          subst hdd
          rw [← h]
          simp only [beq_iff_eq]
          constructor
          · intro hx
            exact Or.inr ⟨hKun, hx⟩
          · rintro (⟨hP, _⟩ | ⟨_, hx⟩)
            · rw [hKun] at hP
              exact absurd hP (by decide)
            · exact hx
        · rw [if_neg h1, if_neg h2, if_neg h3] at h
          simp only [exceptPure, exceptBind_ok, Except.ok.injEq] at h
          rw [← h]
          constructor
          · intro hf
            exact absurd hf (by decide)
          · rintro (⟨hP, _⟩ | ⟨hK, _⟩)
            · exact absurd (beq_iff_eq.mpr hP) h2
            · exact absurd (beq_iff_eq.mpr hK) h3

/-- Fixture for C6's witness: a Premium member, no payments, enrolled
2025-01-10 (expiry 2025-01-31). -/
def c6wm : MemberRec := ⟨6, "6666", "Premium", "E", ⟨⟨2025, 1, 10⟩, 0⟩, true⟩

/-- Fixture for C6's witness. -/
def c6wdb : Db := ⟨[c6wm], [], [], []⟩

/-- Witness for C6: the rule instantiated on 2025-01-29 (two days before
expiry) for `c6wm`, where `is_expiring_soon` answers true. -/
theorem C6_expiring_soon_rule_witness :
    c6wm.payment_type ≠ "Oylik" ∧
    (true = true ↔
      ((c6wm.payment_type = "Premium" ∧
          0 ≤ dateSubDays (specExpiry c6wdb c6wm) ⟨2025, 1, 29⟩ ∧
          dateSubDays (specExpiry c6wdb c6wm) ⟨2025, 1, 29⟩ ≤ 3) ∨
        (c6wm.payment_type = "Kunlik" ∧
          dateSubDays (specExpiry c6wdb c6wm) ⟨2025, 1, 29⟩ = 0))) :=
  C6_expiring_soon_rule c6wdb [] c6wm ⟨2025, 1, 29⟩ true rfl rfl

theorem map_replace_of_filter_nil {α : Type} (p : α → Bool) (row : α)
    (l : List α) (h : l.filter p = []) :
    l.map (fun r => if p r then row else r) = l := by
  induction l with
  | nil => rfl
  | cons a t ih =>
    rw [List.filter_cons] at h
    cases hp : p a with
    | true =>
      rw [hp] at h
      simp at h
    | false =>
      rw [hp] at h
      simp only [Bool.false_eq_true, if_false] at h
      simp only [List.map_cons, hp, Bool.false_eq_true, if_false]
      rw [ih h]

theorem filter_map_replace_one {α : Type} (p : α → Bool) (row : α)
    (hrow : p row = true) :
    ∀ l : List α, (l.filter p).length = 1 →
      (l.map (fun r => if p r then row else r)).filter p = [row] := by
  intro l
  induction l with
  | nil => intro h; simp at h
  | cons a t ih =>
    intro h
    rw [List.filter_cons] at h
    cases hp : p a with
    | true =>
      rw [hp] at h
      simp only [eq_self_iff_true, if_true, List.length_cons] at h
      have hnil : t.filter p = [] := by
        rw [← List.length_eq_zero]
        omega
      simp only [List.map_cons, hp, eq_self_iff_true, if_true]
      rw [map_replace_of_filter_nil p row t hnil]
      rw [List.filter_cons, hrow]
      simp only [eq_self_iff_true, if_true, hnil]
    | false =>
      rw [hp] at h
      simp only [Bool.false_eq_true, if_false] at h
      simp only [List.map_cons, hp, Bool.false_eq_true, if_false]
      rw [List.filter_cons, hp]
      simp only [Bool.false_eq_true, if_false]
      exact ih h

theorem map_replace_of_filter_single {α : Type} (p : α → Bool) (row : α) :
    ∀ l : List α, l.filter p = [row] →
      l.map (fun r => if p r then row else r) = l := by
  intro l
  induction l with
  | nil => intro h; simp at h
  | cons a t ih =>
    intro h
    rw [List.filter_cons] at h
    cases hp : p a with
    | true =>
      rw [hp] at h
      simp only [eq_self_iff_true, if_true] at h
      have ha : a = row := (List.cons.inj h).1
      have hnil : t.filter p = [] := (List.cons.inj h).2
      simp only [List.map_cons, hp, eq_self_iff_true, if_true]
      rw [map_replace_of_filter_nil p row t hnil, ha]
    | false =>
      rw [hp] at h
      simp only [Bool.false_eq_true, if_false] at h
      simp only [List.map_cons, hp, Bool.false_eq_true, if_false]
      rw [ih h]

theorem upsertBy_idem {α κ : Type} [BEq κ] [LawfulBEq κ] (key : α → κ)
    (rows : List α) (row : α)
    (h : (rows.filter (fun r => key r == key row)).length ≤ 1) :
    ∃ rows', upsertBy key rows row = .ok rows' ∧
      rows'.filter (fun r => key r == key row) = [row] ∧
      upsertBy key rows' row = .ok rows' := by
  have hrow : (key row == key row) = true := by simp
  cases hl : (rows.filter (fun r => key r == key row)).length with
  | zero =>
    have hnil : rows.filter (fun r => key r == key row) = [] :=
      List.length_eq_zero.mp hl
    have e1 : upsertBy key rows row = .ok (rows ++ [row]) := by
      unfold upsertBy
      rw [hl]
    have hf : (rows ++ [row]).filter (fun r => key r == key row) = [row] := by
      rw [List.filter_append, hnil]
      simp only [List.nil_append, List.filter_cons, hrow, eq_self_iff_true,
        if_true, List.filter_nil]
    have e2 : upsertBy key (rows ++ [row]) row = .ok (rows ++ [row]) := by
      unfold upsertBy
      rw [show ((rows ++ [row]).filter
          (fun r => key r == key row)).length = 1 from by rw [hf]; rfl]
      rw [map_replace_of_filter_single (fun r => key r == key row) row
        (rows ++ [row]) hf]
    exact ⟨rows ++ [row], e1, hf, e2⟩
  | succ n =>
    cases n with
    | zero =>
      have e1 : upsertBy key rows row =
          .ok (rows.map
            (fun r => if key r == key row then row else r)) := by
        unfold upsertBy
        rw [hl]
      have hf : (rows.map
          (fun r => if key r == key row then row else r)).filter
            (fun r => key r == key row) = [row] :=
        filter_map_replace_one _ row hrow rows hl
      have e2 : upsertBy key
          (rows.map (fun r => if key r == key row then row else r)) row =
          .ok (rows.map
            (fun r => if key r == key row then row else r)) := by
        unfold upsertBy
        rw [show ((rows.map
            (fun r => if key r == key row then row else r)).filter
              (fun r => key r == key row)).length = 1 from by rw [hf]; rfl]
        rw [map_replace_of_filter_single (fun r => key r == key row) row _
          hf]
      exact ⟨_, e1, hf, e2⟩
    | succ k =>
      rw [hl] at h
      omega

/-- C8 (confirmed): report generation is an idempotent upsert.  Given stores
in which the target date/month keys at most one row (the `unique=True`
constraint on `DailyReport.date` / `MonthlyReport.month`), one run succeeds,
a second run with unchanged underlying data returns the same store, and the
store holds exactly the one freshly computed row under that key. -/
theorem C8_reports_idempotent (db : Db) (atts : List AttRow) (d month : Date)
    (dstore : List DailyRow) (mstore : List MonthlyRow)
    (hd : (dstore.filter (fun r => r.date == d)).length ≤ 1)
    (hm : (mstore.filter (fun r => r.month == month)).length ≤ 1) :
    ∃ dstore' mstore',
      generateDailyReport db atts d dstore = .ok dstore' ∧
      generateDailyReport db atts d dstore' = .ok dstore' ∧
      dstore'.filter (fun r => r.date == d) = [dailyRow db atts d] ∧
      generateMonthlyReport db atts month mstore = .ok mstore' ∧
      generateMonthlyReport db atts month mstore' = .ok mstore' ∧
      mstore'.filter (fun r => r.month == month) =
        [monthlyRow db atts month] := by
  obtain ⟨ds, e1, hf, e2⟩ :=
    upsertBy_idem (fun r : DailyRow => r.date) dstore (dailyRow db atts d) hd
  obtain ⟨ms, f1, hg, f2⟩ :=
    upsertBy_idem (fun r : MonthlyRow => r.month) mstore
      (monthlyRow db atts month) hm
  exact ⟨ds, ms, e1, e2, hf, f1, f2, hg⟩

/-- Witness for C8: both generators run twice over an empty database and
empty stores for 2025-06-01 / June 2025. -/
theorem C8_reports_idempotent_witness :
    ∃ dstore' mstore',
      generateDailyReport ⟨[], [], [], []⟩ [] ⟨2025, 6, 1⟩ [] = .ok dstore' ∧
      generateDailyReport ⟨[], [], [], []⟩ [] ⟨2025, 6, 1⟩ dstore' =
        .ok dstore' ∧
      dstore'.filter (fun r => r.date == (⟨2025, 6, 1⟩ : Date)) =
        [dailyRow ⟨[], [], [], []⟩ [] ⟨2025, 6, 1⟩] ∧
      generateMonthlyReport ⟨[], [], [], []⟩ [] ⟨2025, 6, 1⟩ [] =
        .ok mstore' ∧
      generateMonthlyReport ⟨[], [], [], []⟩ [] ⟨2025, 6, 1⟩ mstore' =
        .ok mstore' ∧
      mstore'.filter (fun r => r.month == (⟨2025, 6, 1⟩ : Date)) =
        [monthlyRow ⟨[], [], [], []⟩ [] ⟨2025, 6, 1⟩] :=
  C8_reports_idempotent ⟨[], [], [], []⟩ [] ⟨2025, 6, 1⟩ ⟨2025, 6, 1⟩ [] []
    (by simp) (by simp)

theorem orZero_aggSum (l : List Int) : orZero (aggSum l) = l.sum := by
  cases l <;> simp [aggSum, orZero]

theorem filter_pipeline_eq {α : Type} (l : List α) (s p : α → Bool) :
    (l.filter s).filter (fun a => p a && s a) =
      l.filter (fun a => s a && p a) := by
  rw [List.filter_filter]
  apply List.filter_congr
  intro a _
  cases s a <;> cases p a <;> rfl

theorem filter_pipeline_eq3 {α : Type} (l : List α) (s p q : α → Bool) :
    (l.filter s).filter (fun a => (p a && s a) && q a) =
      l.filter (fun a => (s a && q a) && p a) := by
  rw [List.filter_filter]
  apply List.filter_congr
  intro a _
  cases s a <;> cases p a <;> cases q a <;> rfl

theorem filter_and_comm {α : Type} (l : List α) (p q : α → Bool) :
    l.filter (fun a => p a && q a) = l.filter (fun a => q a && p a) := by
  apply List.filter_congr
  intro a _
  cases p a <;> cases q a <;> rfl

/-- C9 (amended): every field of the generated daily report equals its
direct aggregate: income/expense sum active payments'/costs' amounts whose
timestamp is midnight of the day; cash/card income select on the plan-type
field `payment_type` (not `payment_method`); `check_ins` counts active
attendances of the day; `expiring_soon` counts active members having any raw
`Subscription` row ending within [date, date+3] (not the eligibility
engine); and the gender counts match the literal strings `male`/`female`,
which never equal the stored codes `E`/`A`. -/
theorem C9_daily_report_fields (db : Db) (atts : List AttRow) (d : Date) :
    dailyRow db atts d = specDailyRow db atts d := by
  unfold dailyRow specDailyRow paymentQs costQs attQs
  congr 1
  · rw [orZero_aggSum,
      filter_pipeline_eq db.payments (fun p => p.state)
        (fun p => p.date == dtMidnight d)]
  · rw [orZero_aggSum,
      filter_pipeline_eq db.costs (fun c => c.state)
        (fun c => c.date == dtMidnight d)]
  · rw [filter_and_comm db.members (fun u => u.created_at.date == d)
      (fun u => u.state)]
  · rw [filter_pipeline_eq3 db.payments (fun p => p.state)
      (fun p => p.date == dtMidnight d)
      (fun p => p.payment_type == "renewal")]
  · rw [filter_pipeline_eq atts (fun a => a.state)
      (fun a => a.attended_at == d)]
  · rw [filter_pipeline_eq atts (fun a => a.state)
      (fun a => a.attended_at == d)]
  · rw [orZero_aggSum,
      filter_pipeline_eq3 db.payments (fun p => p.state)
        (fun p => p.date == dtMidnight d)
        (fun p => p.payment_type == "cash")]
  · rw [orZero_aggSum,
      filter_pipeline_eq3 db.payments (fun p => p.state)
        (fun p => p.date == dtMidnight d)
        (fun p => p.payment_type == "card")]
